import Mathlib

/-!
Verification of the OpsWorks deployment orchestrator
(`src/lib/OpsWorksDeploy.js`) against its specification.

The JavaScript module is callback-based glue over the AWS OpsWorks API.
We embed it shallowly:

* remote entities (`App`, `Layer`, `Instance`, `Deployment`) become
  structures of the fields the code reads;
* the OpsWorks client becomes a record of response functions
  (`OpsWorksApi`); a field returning `Except String α` models the
  `(err, data)` callback convention — `.error` is a non-null `err`;
* a response object whose array field may be absent (`!data.Apps`,
  `!data.Layers`, `!data.Deployments`) is modelled as `Option (List _)`,
  `none` standing for a missing/null field (a present empty array is
  `some []`, since `![]` is falsy in JavaScript);
* each orchestrator method returns its result together with the list of
  API calls it issued (`List ApiCall`), so that frame properties
  ("createDeployment is never invoked") are statable;
* the unbounded polling loop `waitForDeployFinish` is given explicit
  fuel; running out of fuel is reported as `WaitResult.outOfFuel`, a
  state the real code would simply keep polling in.
-/

/-- An OpsWorks application record, with the fields `deploy` reads:
`AppId`, `StackId` and `Type` (from `AWS.describeApps`). -/
structure App where
  AppId : String
  StackId : String
  «Type» : String
deriving DecidableEq

/-- An OpsWorks layer record, with the fields the code reads:
`LayerId` and `Type` (from `AWS.describeLayers`). -/
structure Layer where
  LayerId : String
  «Type» : String
deriving DecidableEq

/-- An OpsWorks instance record; the code reads only `Status`. -/
structure Instance where
  Status : String
deriving DecidableEq

/-- An OpsWorks deployment record; `_determineDeploymentStatus` reads
only `Status`. -/
structure Deployment where
  Status : String
deriving DecidableEq

/-- The result of one `describeDeployments` response:
`err` or `data` with a possibly missing `Deployments` field. -/
abbrev PollResp := Except String (Option (List Deployment))

/-- One invocation of the AWS OpsWorks client, as observed by the
orchestrator.  Recording these lets us state which remote operations a
run does and does not perform. -/
inductive ApiCall where
  | describeApps (appIds : List String)
  | describeLayers (stackId : String)
  | describeInstances (layerId : String)
  | updateApp (appId : String) (s3SourceUrl : String)
  | createDeployment (stackId : String) (appId : String)
  | describeDeployments (deploymentIds : List String)
deriving DecidableEq

/-- Discriminator for `ApiCall.updateApp`. -/
def ApiCall.isUpdateAppCall : ApiCall → Bool
  | .updateApp _ _ => true
  | _ => false

/-- Discriminator for `ApiCall.createDeployment`. -/
def ApiCall.isCreateDeploymentCall : ApiCall → Bool
  | .createDeployment _ _ => true
  | _ => false

/-- The AWS OpsWorks client, as a record of response functions.  Each
field models one SDK operation the module calls; `Except.error` models
the `err` callback argument being non-null. -/
structure OpsWorksApi where
  describeApps : List String → Except String (Option (List App))
  describeLayers : String → Except String (Option (List Layer))
  describeInstances : String → Except String (List Instance)
  updateApp : String → String → Except String Unit
  createDeployment : String → String → Except String String
deriving Inhabited

/-- Constructor options: the code reads only `options.pollingTime`
(`none` models an absent field). -/
structure Options where
  pollingTime : Option Nat
deriving DecidableEq

/-- The mutable fields of an `OpsWorksDeploy` object.  The constructor
assigns `deployStatus` and `pollingTime`; it never assigns `state`, yet
`waitForDeployFinish` reads `this.state` — we model that always
undefined property as an `Option String` that starts out `none`. -/
structure OpsWorksState where
  deployStatus : Option String
  pollingTime : Nat
  state : Option String
deriving DecidableEq

/-- The constructor `OpsWorksDeploy(options)`: `deployStatus` starts
null; `pollingTime` defaults to 10000 when `options.pollingTime` is
falsy (absent or `0`); `state` is never assigned, i.e. undefined. -/
def OpsWorksDeploy.init (options : Options) : OpsWorksState :=
  { deployStatus := none
    pollingTime :=
      match options.pollingTime with
      | some t => if t = 0 then 10000 else t
      | none => 10000
    state := none }

/-- Error message of `findApp` when no application matched. -/
def unableToFindAppMsg (appId : String) : String :=
  "Unable to find AppId \x22" ++ appId ++
    "\x22, check if it exists and you have sufficient privileges"

/-- Error message of `findLayerByType` when the stack has no layers
(the doubled quote after the stack id is verbatim from the source). -/
def noLayersMsg (stackId : String) : String :=
  "No OpsWorks layers found in StackId \x22" ++ stackId ++
    "\x22\x22, check if a layer exists and whether you have sufficient privileges"

/-- Error message of `findRunningInstances` when no layer of the
requested type exists. -/
def unableToFindLayerMsg (layerType stackId : String) : String :=
  "Unable to find layer with type \x22" ++ layerType ++
    "\x22 in StackId \x22" ++ stackId ++ "\x22"

/-- Error message of `findRunningInstances` when the filtered instance
list is empty. -/
def noRunningInstancesMsg (layerId stackId : String) : String :=
  "No running instances found for LayerId \x22" ++ layerId ++
    "\x22 in StackId \x22" ++ stackId ++ "\x22"

/-- Error message of `getDeploymentStatus` when the record count does
not match the requested ids (JavaScript stringifies the array by
joining with commas). -/
def couldNotRetrieveMsg (deploymentIds : List String) : String :=
  "Could not retrieve all deployment statuses for deployment ids " ++
    String.intercalate "," deploymentIds

/-- Error message of `waitForDeployFinish` on aggregate `failed`. -/
def deploymentFailedMsg : String :=
  "Deployment failed, look in Amazon OpsWorks deployment logs to see why"

/-- JavaScript string coercion of a possibly-null status: `null`
prints as `"null"`. -/
def jsStringOfStatus : Option String → String
  | none => "null"
  | some s => s

/-- Error message of `waitForDeployFinish` on an unrecognized status. -/
def unknownStatusMsg (status : Option String) : String :=
  "Unknown deployment status \x22" ++ jsStringOfStatus status ++ "\x22"

/-- One iteration of the loop body of `_determineDeploymentStatus`
(source lines 334-340).  The accumulator `status` starts as `null`
(`none`); string comparisons with `null` are false in JavaScript. -/
def statusStep (status : Option String) (d : Deployment) : Option String :=
  if status = some "running" ∨ d.Status = "running" then
    some "running"
  else if status = some "failed" ∨ d.Status = "failed" then
    some "failed"
  else if status ≠ some "failed" then
    some "successful"
  else
    status

/-- The method `_determineDeploymentStatus(deployments)`: a left fold
of `statusStep` over the deployment records, starting from `null`. -/
def _determineDeploymentStatus (deployments : List Deployment) : Option String :=
  deployments.foldl statusStep none

/-- The while loop of `findLayerByType` (source lines 174-182): scan
the layers in listing order, stopping at the first one whose `Type`
equals `layerType`; `null` when none matches. -/
def firstLayerWithType (layers : List Layer) (layerType : String) : Option Layer :=
  match layers with
  | [] => none
  | l :: ls =>
      if l.«Type» = layerType then some l
      else firstLayerWithType ls layerType

/-- The method `findApp(appId)`: calls `describeApps` with the single
id; passes API errors through; errors when `data.Apps` is missing or
empty; otherwise returns `data.Apps[0]`. -/
def findApp (api : OpsWorksApi) (appId : String) :
    Except String App × List ApiCall :=
  (match api.describeApps [appId] with
   | .error err => .error err
   | .ok none => .error (unableToFindAppMsg appId)
   | .ok (some []) => .error (unableToFindAppMsg appId)
   | .ok (some (a :: _)) => .ok a,
   [ApiCall.describeApps [appId]])

/-- The method `findLayerByType(stackId, layerType)`: calls
`describeLayers`; passes API errors through; errors when `data.Layers`
is missing or empty; otherwise runs the first-match scan and returns
its (possibly null) result without error. -/
def findLayerByType (api : OpsWorksApi) (stackId layerType : String) :
    Except String (Option Layer) × List ApiCall :=
  (match api.describeLayers stackId with
   | .error err => .error err
   | .ok none => .error (noLayersMsg stackId)
   | .ok (some []) => .error (noLayersMsg stackId)
   | .ok (some (l :: ls)) => .ok (firstLayerWithType (l :: ls) layerType),
   [ApiCall.describeLayers stackId])

/-- The method `findRunningInstancesByLayerId(layerId)`: calls
`describeInstances`; passes API errors through; otherwise filters the
instances to those with `Status == "online"` (an empty result is not
an error here). -/
def findRunningInstancesByLayerId (api : OpsWorksApi) (layerId : String) :
    Except String (List Instance) × List ApiCall :=
  (match api.describeInstances layerId with
   | .error err => .error err
   | .ok data => .ok (data.filter (fun element => element.Status == "online")),
   [ApiCall.describeInstances layerId])

/-- The method `findRunningInstances(stackId, layerType)`: looks the
layer up by type (a null layer is an error at this level), then lists
its online instances, erroring when that filtered list is empty. -/
def findRunningInstances (api : OpsWorksApi) (stackId layerType : String) :
    Except String (List Instance) × List ApiCall :=
  match findLayerByType api stackId layerType with
  | (.error e, calls) => (.error e, calls)
  | (.ok none, calls) => (.error (unableToFindLayerMsg layerType stackId), calls)
  | (.ok (some layer), calls) =>
      match findRunningInstancesByLayerId api layer.LayerId with
      | (.error e, calls₂) => (.error e, calls ++ calls₂)
      | (.ok instances, calls₂) =>
          if instances.length = 0 then
            (.error (noRunningInstancesMsg layer.LayerId stackId), calls ++ calls₂)
          else
            (.ok instances, calls ++ calls₂)

/-- The method `updateApp(appId, s3SourceUrl)`: a single `updateApp`
API call whose error, if any, is passed through. -/
def updateApp (api : OpsWorksApi) (appId s3SourceUrl : String) :
    Except String Unit × List ApiCall :=
  (api.updateApp appId s3SourceUrl, [ApiCall.updateApp appId s3SourceUrl])

/-- The method `createDeployment(stackId, appId)`: issues the `deploy`
command; passes API errors through; otherwise returns the new
`DeploymentId`. -/
def createDeployment (api : OpsWorksApi) (stackId appId : String) :
    Except String String × List ApiCall :=
  (match api.createDeployment stackId appId with
   | .error err => .error err
   | .ok deploymentId => .ok deploymentId,
   [ApiCall.createDeployment stackId appId])

/-- The response-processing part of `getDeploymentStatus` (source
lines 303-311): passes API errors through; errors when
`data.Deployments` is missing or its length differs from the number of
requested ids (the source compares with `!==`); otherwise aggregates
with `_determineDeploymentStatus`. -/
def getDeploymentStatusResp (deploymentIds : List String) (resp : PollResp) :
    Except String (Option String) :=
  match resp with
  | .error err => .error err
  | .ok none => .error (couldNotRetrieveMsg deploymentIds)
  | .ok (some deps) =>
      if deps.length ≠ deploymentIds.length then
        .error (couldNotRetrieveMsg deploymentIds)
      else
        .ok (_determineDeploymentStatus deps)

/-- Outcome of a `waitForDeployFinish` run. `finished` models
`callback(null, status)` from the successful branch; `errored` models
`callback(err)`; `earlyExit` models the `this.state` short-circuit on
source line 264-266 returning `callback(null, this.state)`;
`outOfFuel` means the fuel of the model ran out while the real loop would
still be polling. -/
inductive WaitResult where
  | finished (status : Option String)
  | errored (msg : String)
  | earlyExit (status : Option String)
  | outOfFuel
deriving DecidableEq

/-- The method `waitForDeployFinish(deploymentIds, callback)` run to
completion on a stream of `describeDeployments` responses (`respAt i`
is the response to the i-th poll).  Each iteration first waits
`pollingTime` (counted in the first `Nat`), then checks the dead
`this.state == "successfull" || this.state == "failed"` guard, then
fetches and stores the aggregate status in `this.deployStatus`
(fetches counted in the second `Nat`) and dispatches on it; a
`running` aggregate recurses.  Returns the final object state, the
outcome, the number of waits and the number of status fetches. -/
def waitRun (deploymentIds : List String) (respAt : Nat → PollResp) :
    OpsWorksState → Nat → Nat → OpsWorksState × WaitResult × Nat × Nat
  | st, _, 0 => (st, .outOfFuel, 0, 0)
  | st, i, fuel + 1 =>
      if st.state = some "successfull" ∨ st.state = some "failed" then
        (st, .earlyExit st.state, 1, 0)
      else
        match getDeploymentStatusResp deploymentIds (respAt i) with
        | .error e => (st, .errored e, 1, 1)
        | .ok status =>
            let st₂ : OpsWorksState := { st with deployStatus := status }
            if status = some "running" then
              match waitRun deploymentIds respAt st₂ (i + 1) fuel with
              | (st₃, r, w, f) => (st₃, r, w + 1, f + 1)
            else if status = some "failed" then
              (st₂, .errored deploymentFailedMsg, 1, 1)
            else if status = some "successful" then
              (st₂, .finished (some "successful"), 1, 1)
            else
              (st₂, .errored (unknownStatusMsg status), 1, 1)

/-- JavaScript truthiness of the optional `s3SourceUrl` argument:
`undefined`/`null` and the empty string are falsy. -/
def jsTruthy : Option String → Bool
  | none => false
  | some s => s ≠ ""

/-- The method `deploy(appId, s3SourceUrl, callback)`: the
`async.waterfall` pipeline findApp → findRunningInstances (layer type
`app.Type + "-app"`) → optional updateApp → createDeployment →
waitForDeployFinish, aborting on the first error.  Returns the outcome
together with the full list of API calls issued (each status fetch of
the polling loop is one `describeDeployments` call). -/
def deploy (api : OpsWorksApi) (st : OpsWorksState) (appId : String)
    (s3SourceUrl : Option String) (respAt : Nat → PollResp) (fuel : Nat) :
    WaitResult × List ApiCall :=
  match findApp api appId with
  | (.error e, c₁) => (.errored e, c₁)
  | (.ok app, c₁) =>
      match findRunningInstances api app.StackId (app.«Type» ++ "-app") with
      | (.error e, c₂) => (.errored e, c₁ ++ c₂)
      | (.ok _instances, c₂) =>
          match (if jsTruthy s3SourceUrl then
                   updateApp api app.AppId (s3SourceUrl.getD "")
                 else
                   (Except.ok (), [])) with
          | (.error e, c₃) => (.errored e, c₁ ++ c₂ ++ c₃)
          | (.ok _, c₃) =>
              match createDeployment api app.StackId app.AppId with
              | (.error e, c₄) => (.errored e, c₁ ++ c₂ ++ c₃ ++ c₄)
              | (.ok deploymentId, c₄) =>
                  match waitRun [deploymentId] respAt st 0 fuel with
                  | (_, r, _, f) =>
                      (r, c₁ ++ c₂ ++ c₃ ++ c₄ ++
                        (List.range f).map
                          (fun _ => ApiCall.describeDeployments [deploymentId]))

/-- A concrete backend used to exercise the orchestrator: one
application `app1` of type `web` on `stack1`, one matching layer
`web-app`, one online and one stopped instance, and a backend that
accepts updates and creates deployment `dep1`. -/
def apiHappyPath : OpsWorksApi where
  describeApps := fun _ =>
    .ok (some [{ AppId := "app1", StackId := "stack1", «Type» := "web" }])
  describeLayers := fun _ =>
    .ok (some [{ LayerId := "layer1", «Type» := "web-app" }])
  describeInstances := fun _ =>
    .ok [{ Status := "online" }, { Status := "stopped" }]
  updateApp := fun _ _ => .ok ()
  createDeployment := fun _ _ => .ok "dep1"

/-- A concrete backend whose stack has one layer, of type `db`, so no
layer matches the derived type `web-app`. -/
def apiNoLayerMatch : OpsWorksApi where
  describeApps := fun _ =>
    .ok (some [{ AppId := "app1", StackId := "stack1", «Type» := "web" }])
  describeLayers := fun _ =>
    .ok (some [{ LayerId := "layer1", «Type» := "db" }])
  describeInstances := fun _ =>
    .ok [{ Status := "online" }]
  updateApp := fun _ _ => .ok ()
  createDeployment := fun _ _ => .ok "dep1"

/-- Folding from accumulator `"running"` stays `"running"`: in the
loop, `status == "running"` forces the first branch forever. -/
theorem foldl_statusStep_running (l : List Deployment) :
    l.foldl statusStep (some "running") = some "running" := by
  induction l with
  | nil => rfl
  | cons d tl ih =>
      have h : statusStep (some "running") d = some "running" := by
        simp [statusStep]
      simpa [List.foldl, h] using ih

/-- Folding from accumulator `"failed"`: the result is `"running"` when
some later record is running, otherwise `"failed"`. -/
theorem foldl_statusStep_failed (l : List Deployment) :
    l.foldl statusStep (some "failed") =
      if l.any (fun d => d.Status == "running") then some "running"
      else some "failed" := by
  induction l with
  | nil => rfl
  | cons d tl ih =>
      by_cases hr : d.Status = "running"
      · have h : statusStep (some "failed") d = some "running" := by
          simp [statusStep, hr]
        simp [List.foldl, h, foldl_statusStep_running, List.any_cons, hr]
      · have h : statusStep (some "failed") d = some "failed" := by
          simp [statusStep, hr]
        simp [List.foldl, h, ih, List.any_cons, hr]

/-- Folding from accumulator `"successful"`: running beats failed beats
successful among the remaining records. -/
theorem foldl_statusStep_successful (l : List Deployment) :
    l.foldl statusStep (some "successful") =
      if l.any (fun d => d.Status == "running") then some "running"
      else if l.any (fun d => d.Status == "failed") then some "failed"
      else some "successful" := by
  induction l with
  | nil => rfl
  | cons d tl ih =>
      by_cases hr : d.Status = "running"
      · have h : statusStep (some "successful") d = some "running" := by
          simp [statusStep, hr]
        simp [List.foldl, h, foldl_statusStep_running, List.any_cons, hr]
      · by_cases hf : d.Status = "failed"
        · have h : statusStep (some "successful") d = some "failed" := by
            simp [statusStep, hr, hf]
          simp [List.foldl, h, foldl_statusStep_failed, List.any_cons, hr, hf]
        · have h : statusStep (some "successful") d = some "successful" := by
            simp [statusStep, hr, hf]
          simp [List.foldl, h, ih, List.any_cons, hr, hf]

/-- C1: for every non-empty list of deployment records whose statuses
are drawn from running/failed/successful, `_determineDeploymentStatus`
follows the precedence rule: any running member makes the aggregate
"running" (even in the presence of "failed" members); otherwise any
failed member makes it "failed"; otherwise it is "successful". -/
theorem determineDeploymentStatus_precedence (deps : List Deployment)
    (hne : deps ≠ [])
    (_hset : ∀ d ∈ deps, d.Status = "running" ∨ d.Status = "failed" ∨
      d.Status = "successful") :
    _determineDeploymentStatus deps =
      if deps.any (fun d => d.Status == "running") then some "running"
      else if deps.any (fun d => d.Status == "failed") then some "failed"
      else some "successful" := by
  match deps, hne with
  | d :: tl, _ =>
      by_cases hr : d.Status = "running"
      · have h : statusStep none d = some "running" := by
          simp [statusStep, hr]
        simp [_determineDeploymentStatus, List.foldl, h,
          foldl_statusStep_running, List.any_cons, hr]
      · by_cases hf : d.Status = "failed"
        · have h : statusStep none d = some "failed" := by
            simp [statusStep, hr, hf]
          simp [_determineDeploymentStatus, List.foldl, h,
            foldl_statusStep_failed, List.any_cons, hr, hf]
        · have h : statusStep none d = some "successful" := by
            simp [statusStep, hr, hf]
          simp [_determineDeploymentStatus, List.foldl, h,
            foldl_statusStep_successful, List.any_cons, hr, hf]

/-- Witness for C1: the mixed list [successful, running, failed]
aggregates to "running". -/
theorem determineDeploymentStatus_precedence_witness :
    _determineDeploymentStatus
        [⟨"successful"⟩, ⟨"running"⟩, ⟨"failed"⟩] = some "running" := by
  have h := determineDeploymentStatus_precedence
    [⟨"successful"⟩, ⟨"running"⟩, ⟨"failed"⟩] (by decide) (by decide)
  simpa using h

/-- The first-match scan of `findLayerByType` agrees with `List.find?`
on the matching predicate. -/
theorem firstLayerWithType_eq_find (layers : List Layer) (layerType : String) :
    firstLayerWithType layers layerType =
      layers.find? (fun l => l.«Type» == layerType) := by
  induction layers with
  | nil => rfl
  | cons l ls ih =>
      by_cases h : l.«Type» = layerType
      · rw [List.find?_cons_of_pos _ (by simp [h])]
        simp [firstLayerWithType, h]
      · rw [List.find?_cons_of_neg _ (by simp [h])]
        simp [firstLayerWithType, h, ih]

/-- The scan returns `null` exactly when no layer has the requested
type. -/
theorem firstLayerWithType_eq_none_iff (layers : List Layer) (layerType : String) :
    firstLayerWithType layers layerType = none ↔
      ∀ l ∈ layers, l.«Type» ≠ layerType := by
  rw [firstLayerWithType_eq_find]
  simp [List.find?_eq_none]

/-- C8: when the backend answers `describeApps` without an API error,
`findApp` fails with the not-found error exactly when the returned
application list is missing or empty, and otherwise returns the first
application of the list. -/
theorem findApp_spec (api : OpsWorksApi) (appId : String)
    (data : Option (List App))
    (h : api.describeApps [appId] = .ok data) :
    ((findApp api appId).1 = .error (unableToFindAppMsg appId) ↔
      data = none ∨ data = some []) ∧
    ∀ a rest, data = some (a :: rest) → (findApp api appId).1 = .ok a := by
  refine ⟨?_, ?_⟩
  · match data with
    | none => simp [findApp, h]
    | some [] => simp [findApp, h]
    | some (a :: rest) => simp [findApp, h]
  · intro a rest hdata
    subst hdata
    simp [findApp, h]

/-- Witness for C8 at the concrete happy-path backend. -/
theorem findApp_spec_witness :
    (findApp apiHappyPath "app1").1 =
      .ok { AppId := "app1", StackId := "stack1", «Type» := "web" } :=
  (findApp_spec apiHappyPath "app1"
      (some [{ AppId := "app1", StackId := "stack1", «Type» := "web" }]) rfl).2
    { AppId := "app1", StackId := "stack1", «Type» := "web" } [] rfl

/-- C4: when the backend answers `describeLayers` without an API
error: a stack with zero layers is an error; otherwise the result is
the first layer (in listing order) whose `Type` equals the query, and
an explicit `null` success — not an error — when no layer matches. -/
theorem findLayerByType_spec (api : OpsWorksApi) (stackId layerType : String)
    (layers : List Layer)
    (h : api.describeLayers stackId = .ok (some layers)) :
    (layers = [] →
      (findLayerByType api stackId layerType).1 = .error (noLayersMsg stackId)) ∧
    (layers ≠ [] →
      (findLayerByType api stackId layerType).1 =
        .ok (layers.find? (fun l => l.«Type» == layerType)) ∧
      ((∀ l ∈ layers, l.«Type» ≠ layerType) →
        (findLayerByType api stackId layerType).1 = .ok none)) := by
  refine ⟨?_, ?_⟩
  · intro hnil
    subst hnil
    simp [findLayerByType, h]
  · intro hne
    match layers, hne with
    | l :: ls, _ =>
        refine ⟨?_, ?_⟩
        · simp [findLayerByType, h, firstLayerWithType_eq_find]
        · intro hnomatch
          have hn : firstLayerWithType (l :: ls) layerType = none :=
            (firstLayerWithType_eq_none_iff (l :: ls) layerType).2 hnomatch
          simp [findLayerByType, h, hn]

/-- Witness for C4 at the concrete happy-path backend: the single
`web-app` layer is found. -/
theorem findLayerByType_spec_witness :
    (findLayerByType apiHappyPath "stack1" "web-app").1 =
      .ok (([{ LayerId := "layer1", «Type» := "web-app" }] : List Layer).find?
        (fun l => l.«Type» == "web-app")) :=
  ((findLayerByType_spec apiHappyPath "stack1" "web-app"
      [{ LayerId := "layer1", «Type» := "web-app" }] rfl).2 (by decide)).1

/-- C5: when the instance listing succeeds,
`findRunningInstancesByLayerId` returns exactly the `online` entries
(the filter preserves order) and an empty result is not an error at
that level; `findRunningInstances` errors with the
no-running-instances message exactly when that filtered set is
empty. -/
theorem findRunningInstances_spec (api : OpsWorksApi)
    (stackId layerType : String) (layers : List Layer) (layer : Layer)
    (insts : List Instance)
    (hlayers : api.describeLayers stackId = .ok (some layers))
    (hfound : firstLayerWithType layers layerType = some layer)
    (hinst : api.describeInstances layer.LayerId = .ok insts) :
    (findRunningInstancesByLayerId api layer.LayerId).1 =
      .ok (insts.filter (fun element => element.Status == "online")) ∧
    (insts.filter (fun element => element.Status == "online") = [] →
      (findRunningInstances api stackId layerType).1 =
        .error (noRunningInstancesMsg layer.LayerId stackId)) ∧
    (insts.filter (fun element => element.Status == "online") ≠ [] →
      (findRunningInstances api stackId layerType).1 =
        .ok (insts.filter (fun element => element.Status == "online"))) := by
  have hbyId : (findRunningInstancesByLayerId api layer.LayerId).1 =
      .ok (insts.filter (fun element => element.Status == "online")) := by
    simp [findRunningInstancesByLayerId, hinst]
  refine ⟨hbyId, ?_, ?_⟩
  · intro hempty
    match layers, hfound with
    | l :: ls, hfound =>
        simp [findRunningInstances, findLayerByType, hlayers, hfound,
          findRunningInstancesByLayerId, hinst, hempty]
  · intro hne
    match layers, hfound with
    | l :: ls, hfound =>
        simp [findRunningInstances, findLayerByType, hlayers, hfound,
          findRunningInstancesByLayerId, hinst,
          List.length_eq_zero, hne]

/-- Witness for C5 at the concrete happy-path backend: exactly the one
online instance survives the filter and is returned. -/
theorem findRunningInstances_spec_witness :
    (findRunningInstances apiHappyPath "stack1" "web-app").1 =
      .ok (([{ Status := "online" }, { Status := "stopped" }] :
          List Instance).filter (fun element => element.Status == "online")) :=
  (findRunningInstances_spec apiHappyPath "stack1" "web-app"
      [{ LayerId := "layer1", «Type» := "web-app" }]
      { LayerId := "layer1", «Type» := "web-app" }
      [{ Status := "online" }, { Status := "stopped" }]
      rfl (by decide) rfl).2.2 (by decide)

/-- C3 counterexample: the source compares record count with `!==`,
not `<`, so a response with more records (two) than requested ids
(one) — at least as many as requested — still raises the
inconsistent-result error, contradicting the claim that no error is
raised when at least as many records as ids are returned. -/
theorem getDeploymentStatus_extraRecords_error :
    (["d1"] : List String).length ≤
      ([⟨"successful"⟩, ⟨"successful"⟩] : List Deployment).length ∧
    getDeploymentStatusResp ["d1"]
        (.ok (some [⟨"successful"⟩, ⟨"successful"⟩])) =
      .error (couldNotRetrieveMsg ["d1"]) := by
  exact ⟨by decide, rfl⟩

/-- C3 amended: when the backend answers without an API error,
`getDeploymentStatus` fails with the inconsistent-result error exactly
when the `Deployments` field is missing or the number of returned
records differs from the number of requested ids; otherwise it
succeeds with the aggregate of the returned records. -/
theorem getDeploymentStatus_inconsistent_iff (deploymentIds : List String)
    (data : Option (List Deployment)) :
    (getDeploymentStatusResp deploymentIds (.ok data) =
        .error (couldNotRetrieveMsg deploymentIds) ↔
      data = none ∨
        ∃ deps, data = some deps ∧ deps.length ≠ deploymentIds.length) ∧
    (∀ deps, data = some deps → deps.length = deploymentIds.length →
      getDeploymentStatusResp deploymentIds (.ok data) =
        .ok (_determineDeploymentStatus deps)) := by
  refine ⟨?_, ?_⟩
  · match data with
    | none => simp [getDeploymentStatusResp]
    | some deps =>
        by_cases hl : deps.length = deploymentIds.length
        · simp [getDeploymentStatusResp, hl]
        · simp [getDeploymentStatusResp, hl]
  · intro deps hdata hl
    subst hdata
    simp [getDeploymentStatusResp, hl]

/-- Witness for the amended C3: one id, one running record, aggregate
produced without error. -/
theorem getDeploymentStatus_inconsistent_iff_witness :
    getDeploymentStatusResp ["d1"] (.ok (some [⟨"running"⟩])) =
      .ok (some "running") := by
  have h := (getDeploymentStatus_inconsistent_iff ["d1"]
    (some [⟨"running"⟩])).2 [⟨"running"⟩] rfl rfl
  simpa [_determineDeploymentStatus, statusStep] using h

/-- C9: the empty record list aggregates to `null`; an empty id list
answered with an empty record list therefore yields status `null` from
`getDeploymentStatus`, and `waitForDeployFinish` reports that as the
unknown-status error (JavaScript prints the null as "null") rather
than as a success. -/
theorem emptyDeployments_unknownStatus :
    _determineDeploymentStatus [] = none ∧
    getDeploymentStatusResp [] (.ok (some [])) = .ok none ∧
    (waitRun [] (fun _ => .ok (some [])) (OpsWorksDeploy.init ⟨none⟩) 0 1).2.1 =
      .errored (unknownStatusMsg none) ∧
    unknownStatusMsg none = "Unknown deployment status \x22null\x22" := by
  refine ⟨rfl, rfl, ?_, rfl⟩
  rfl

/-- C2: one polling iteration of `waitForDeployFinish` (on an object
whose `state` field is unset, as it always is) is determined solely by
the aggregate status it fetches: `running` recurses after the wait,
adding one wait and one fetch; `failed` terminates with the error
directing the caller to the remote deployment logs; `successful`
terminates returning "successful" with no error; anything else
terminates with the unknown-status error. -/
theorem waitForDeployFinish_iteration (st : OpsWorksState)
    (deploymentIds : List String) (respAt : Nat → PollResp)
    (i fuel : Nat) (status : Option String)
    (hstate : st.state = none)
    (hfetch : getDeploymentStatusResp deploymentIds (respAt i) = .ok status) :
    (status = some "running" →
      waitRun deploymentIds respAt st i (fuel + 1) =
        ((waitRun deploymentIds respAt { st with deployStatus := status }
            (i + 1) fuel).1,
         (waitRun deploymentIds respAt { st with deployStatus := status }
            (i + 1) fuel).2.1,
         (waitRun deploymentIds respAt { st with deployStatus := status }
            (i + 1) fuel).2.2.1 + 1,
         (waitRun deploymentIds respAt { st with deployStatus := status }
            (i + 1) fuel).2.2.2 + 1)) ∧
    (status = some "failed" →
      waitRun deploymentIds respAt st i (fuel + 1) =
        ({ st with deployStatus := status },
          .errored deploymentFailedMsg, 1, 1)) ∧
    (status = some "successful" →
      waitRun deploymentIds respAt st i (fuel + 1) =
        ({ st with deployStatus := status },
          .finished (some "successful"), 1, 1)) ∧
    (status ≠ some "running" → status ≠ some "failed" →
      status ≠ some "successful" →
      waitRun deploymentIds respAt st i (fuel + 1) =
        ({ st with deployStatus := status },
          .errored (unknownStatusMsg status), 1, 1)) := by
  refine ⟨?_, ?_, ?_, ?_⟩
  · intro hrun
    subst hrun
    simp [waitRun, hstate, hfetch]
  · intro hfail
    subst hfail
    simp [waitRun, hstate, hfetch]
  · intro hsucc
    subst hsucc
    simp [waitRun, hstate, hfetch]
  · intro hr hf hs
    simp [waitRun, hstate, hfetch, hr, hf, hs]

/-- Witness for C2: a single deployment reported successful terminates
the run at once, returning "successful" after one wait and one
fetch. -/
theorem waitForDeployFinish_iteration_witness :
    waitRun ["d1"] (fun _ => Except.ok (some [⟨"successful"⟩]))
        (OpsWorksDeploy.init ⟨none⟩) 0 1 =
      ({ OpsWorksDeploy.init ⟨none⟩ with deployStatus := some "successful" },
        .finished (some "successful"), 1, 1) :=
  (waitForDeployFinish_iteration (OpsWorksDeploy.init ⟨none⟩) ["d1"]
      (fun _ => Except.ok (some [⟨"successful"⟩])) 0 0 (some "successful")
      rfl rfl).2.2.1 rfl

/-- Every run of the polling loop started on an object whose `state`
field is unset leaves it unset, never takes the early-exit branch, and
performs exactly one status fetch per wait. -/
theorem waitRun_state_invariant (deploymentIds : List String)
    (respAt : Nat → PollResp) :
    ∀ fuel (st : OpsWorksState) (i : Nat), st.state = none →
      (waitRun deploymentIds respAt st i fuel).1.state = none ∧
      (∀ s, (waitRun deploymentIds respAt st i fuel).2.1 ≠
        WaitResult.earlyExit s) ∧
      (waitRun deploymentIds respAt st i fuel).2.2.1 =
        (waitRun deploymentIds respAt st i fuel).2.2.2 := by
  intro fuel
  induction fuel with
  | zero =>
      intro st i h
      exact ⟨h, fun s => by simp [waitRun], rfl⟩
  | succ n ih =>
      rintro ⟨ds, pt, sst⟩ i h
      simp only at h
      subst h
      cases hg : getDeploymentStatusResp deploymentIds (respAt i) with
      | error e =>
          refine ⟨?_, ?_, ?_⟩ <;> simp [waitRun, hg]
      | ok status =>
          by_cases hr : status = some "running"
          · subst hr
            rcases hw : waitRun deploymentIds respAt
                ⟨some "running", pt, none⟩ (i + 1) n with ⟨st₃, r, w, f⟩
            have hstep := ih ⟨some "running", pt, none⟩ (i + 1) rfl
            rw [hw] at hstep
            refine ⟨?_, ?_, ?_⟩
            · simpa [waitRun, hg, hw] using hstep.1
            · intro s
              simpa [waitRun, hg, hw] using hstep.2.1 s
            · simpa [waitRun, hg, hw] using hstep.2.2
          · by_cases hf : status = some "failed"
            · refine ⟨?_, ?_, ?_⟩ <;> simp [waitRun, hg, hr, hf]
            · by_cases hs : status = some "successful"
              · refine ⟨?_, ?_, ?_⟩ <;> simp [waitRun, hg, hr, hf, hs]
              · refine ⟨?_, ?_, ?_⟩ <;> simp [waitRun, hg, hr, hf, hs]

/-- C10: no operation ever assigns the `state` field read by the
early-exit check of `waitForDeployFinish` — the constructor leaves it
unset and the polling loop (which stores its results in `deployStatus`
instead) keeps it unset — so the check never short-circuits: no run
started from a constructed object ever returns via the early-exit
branch, and every polling iteration that waits also performs a fresh
describe-deployments status fetch (waits = fetches). -/
theorem state_field_never_set (options : Options)
    (deploymentIds : List String) (respAt : Nat → PollResp) (i fuel : Nat) :
    (OpsWorksDeploy.init options).state = none ∧
    (waitRun deploymentIds respAt (OpsWorksDeploy.init options) i fuel).1.state =
      none ∧
    (∀ s, (waitRun deploymentIds respAt (OpsWorksDeploy.init options) i
        fuel).2.1 ≠ WaitResult.earlyExit s) ∧
    (waitRun deploymentIds respAt (OpsWorksDeploy.init options) i fuel).2.2.1 =
      (waitRun deploymentIds respAt (OpsWorksDeploy.init options) i
        fuel).2.2.2 := by
  have h := waitRun_state_invariant deploymentIds respAt fuel
    (OpsWorksDeploy.init options) i rfl
  exact ⟨rfl, h.1, h.2.1, h.2.2⟩

/-- C6: when the application is found and the layer listing of its stack
succeeds with at least one layer but none of type `Type + "-app"`, the
run fails with the not-found error naming exactly that derived layer
type, and the trace shows `createDeployment` is never invoked. -/
theorem deploy_noLayer_noCreateDeployment (api : OpsWorksApi)
    (st : OpsWorksState) (appId : String) (s3SourceUrl : Option String)
    (respAt : Nat → PollResp) (fuel : Nat) (app : App) (apps : List App)
    (layers : List Layer)
    (happ : api.describeApps [appId] = .ok (some (app :: apps)))
    (hlayers : api.describeLayers app.StackId = .ok (some layers))
    (hne : layers ≠ [])
    (hnomatch : ∀ l ∈ layers, l.«Type» ≠ app.«Type» ++ "-app") :
    deploy api st appId s3SourceUrl respAt fuel =
      (.errored (unableToFindLayerMsg (app.«Type» ++ "-app") app.StackId),
        [ApiCall.describeApps [appId], ApiCall.describeLayers app.StackId]) ∧
    ∀ sId aId, ApiCall.createDeployment sId aId ∉
      (deploy api st appId s3SourceUrl respAt fuel).2 := by
  have hnone : firstLayerWithType layers (app.«Type» ++ "-app") = none :=
    (firstLayerWithType_eq_none_iff layers (app.«Type» ++ "-app")).2 hnomatch
  rcases layers with _ | ⟨l, ls⟩
  · exact absurd rfl hne
  · have hmain : deploy api st appId s3SourceUrl respAt fuel =
        (.errored (unableToFindLayerMsg (app.«Type» ++ "-app") app.StackId),
          [ApiCall.describeApps [appId], ApiCall.describeLayers app.StackId]) := by
      simp [deploy, findApp, happ, findRunningInstances, findLayerByType,
        hlayers, hnone]
    refine ⟨hmain, ?_⟩
    intro sId aId
    rw [hmain]
    simp

/-- Witness for C6: application of type `web` on a stack whose only
layer has type `db`; the run fails naming `web-app` and issues only
the two describe calls. -/
theorem deploy_noLayer_noCreateDeployment_witness :
    deploy apiNoLayerMatch (OpsWorksDeploy.init ⟨none⟩) "app1" none
        (fun _ => Except.error "no poll") 0 =
      (.errored (unableToFindLayerMsg ("web" ++ "-app") "stack1"),
        [ApiCall.describeApps ["app1"], ApiCall.describeLayers "stack1"]) :=
  (deploy_noLayer_noCreateDeployment apiNoLayerMatch (OpsWorksDeploy.init ⟨none⟩)
    "app1" none (fun _ => Except.error "no poll") 0
    { AppId := "app1", StackId := "stack1", «Type» := "web" } []
    [{ LayerId := "layer1", «Type» := "db" }]
    rfl rfl (by decide) (by decide)).1

/-- The polling tail of a deploy trace consists only of
`describeDeployments` calls: it contains no `updateApp` and counts no
`createDeployment`. -/
theorem pollCalls_no_update_no_create (f : Nat) (ids : List String) :
    ((List.range f).map
        (fun _ => ApiCall.describeDeployments ids)).filter
      ApiCall.isUpdateAppCall = [] ∧
    ((List.range f).map
        (fun _ => ApiCall.describeDeployments ids)).countP
      ApiCall.isCreateDeploymentCall = 0 := by
  constructor
  · rw [List.filter_eq_nil_iff]
    intro a ha
    rcases List.mem_map.1 ha with ⟨_, _, rfl⟩
    simp [ApiCall.isUpdateAppCall]
  · rw [List.countP_eq_zero]
    intro a ha
    rcases List.mem_map.1 ha with ⟨_, _, rfl⟩
    simp [ApiCall.isCreateDeploymentCall]

/-- C7: in a run that reaches the update step (application found,
layer found, at least one online instance): with no source URL
supplied, `updateApp` is never invoked and `createDeployment` is
invoked exactly once; with a (non-empty) source URL supplied,
`updateApp` is invoked with exactly that URL at a trace position
strictly before the single `createDeployment` invocation. -/
theorem deploy_update_before_create (api : OpsWorksApi)
    (st : OpsWorksState) (appId : String) (s3SourceUrl : Option String)
    (respAt : Nat → PollResp) (fuel : Nat) (app : App) (apps : List App)
    (layers : List Layer) (layer : Layer) (insts : List Instance)
    (depId : String)
    (happ : api.describeApps [appId] = .ok (some (app :: apps)))
    (hlayers : api.describeLayers app.StackId = .ok (some layers))
    (hfound : firstLayerWithType layers (app.«Type» ++ "-app") = some layer)
    (hinst : api.describeInstances layer.LayerId = .ok insts)
    (honline : insts.filter (fun element => element.Status == "online") ≠ [])
    (hupd : ∀ url, s3SourceUrl = some url →
      api.updateApp app.AppId url = .ok ())
    (hcreate : api.createDeployment app.StackId app.AppId = .ok depId) :
    (s3SourceUrl = none →
      ((deploy api st appId s3SourceUrl respAt fuel).2.filter
        ApiCall.isUpdateAppCall = [] ∧
       (deploy api st appId s3SourceUrl respAt fuel).2.countP
        ApiCall.isCreateDeploymentCall = 1)) ∧
    (∀ url, s3SourceUrl = some url → url ≠ "" →
      ∃ i j : Nat, i < j ∧
        (deploy api st appId s3SourceUrl respAt fuel).2[i]? =
          some (ApiCall.updateApp app.AppId url) ∧
        (deploy api st appId s3SourceUrl respAt fuel).2[j]? =
          some (ApiCall.createDeployment app.StackId app.AppId) ∧
        (deploy api st appId s3SourceUrl respAt fuel).2.countP
          ApiCall.isCreateDeploymentCall = 1) := by
  rcases layers with _ | ⟨l, ls⟩
  · simp [firstLayerWithType] at hfound
  · have honline' : ¬ (insts.filter
        (fun element => element.Status == "online")).length = 0 := by
      simpa [List.length_eq_zero] using honline
    rcases hw : waitRun [depId] respAt st 0 fuel with ⟨st₂, r, w, f⟩
    constructor
    · intro hnone
      subst hnone
      have hcalls : (deploy api st appId none respAt fuel).2 =
          ApiCall.describeApps [appId] :: ApiCall.describeLayers app.StackId ::
          ApiCall.describeInstances layer.LayerId ::
          ApiCall.createDeployment app.StackId app.AppId ::
          (List.range f).map (fun _ => ApiCall.describeDeployments [depId]) := by
        simp [deploy, findApp, happ, findRunningInstances, findLayerByType,
          hlayers, hfound, findRunningInstancesByLayerId, hinst, honline',
          jsTruthy, createDeployment, hcreate, hw]
      rw [hcalls]
      constructor
      · simp [List.filter, ApiCall.isUpdateAppCall,
          (pollCalls_no_update_no_create f [depId]).1]
      · simp [List.countP_cons, ApiCall.isCreateDeploymentCall,
          (pollCalls_no_update_no_create f [depId]).2]
    · intro url hurl hne
      subst hurl
      have htruthy : jsTruthy (some url) = true := by
        simp [jsTruthy, hne]
      have hcalls : (deploy api st appId (some url) respAt fuel).2 =
          ApiCall.describeApps [appId] :: ApiCall.describeLayers app.StackId ::
          ApiCall.describeInstances layer.LayerId ::
          ApiCall.updateApp app.AppId url ::
          ApiCall.createDeployment app.StackId app.AppId ::
          (List.range f).map (fun _ => ApiCall.describeDeployments [depId]) := by
        simp [deploy, findApp, happ, findRunningInstances, findLayerByType,
          hlayers, hfound, findRunningInstancesByLayerId, hinst, honline',
          htruthy, updateApp, hupd url rfl, createDeployment, hcreate, hw]
      refine ⟨3, 4, by decide, ?_, ?_, ?_⟩
      · rw [hcalls]
        simp [List.getElem?_cons_succ, List.getElem?_cons_zero]
      · rw [hcalls]
        simp [List.getElem?_cons_succ, List.getElem?_cons_zero]
      · rw [hcalls]
        simp [List.countP_cons, ApiCall.isCreateDeploymentCall,
          (pollCalls_no_update_no_create f [depId]).2]

/-- Witness for C7: a source URL is supplied on the happy-path
backend; `updateApp` with that URL appears in the trace strictly
before the single `createDeployment`. -/
theorem deploy_update_before_create_witness :
    ∃ i j : Nat, i < j ∧
      (deploy apiHappyPath (OpsWorksDeploy.init ⟨none⟩) "app1"
          (some "https://s3/x.tar.gz") (fun _ => Except.error "no poll")
          0).2[i]? =
        some (ApiCall.updateApp "app1" "https://s3/x.tar.gz") ∧
      (deploy apiHappyPath (OpsWorksDeploy.init ⟨none⟩) "app1"
          (some "https://s3/x.tar.gz") (fun _ => Except.error "no poll")
          0).2[j]? =
        some (ApiCall.createDeployment "stack1" "app1") ∧
      (deploy apiHappyPath (OpsWorksDeploy.init ⟨none⟩) "app1"
          (some "https://s3/x.tar.gz") (fun _ => Except.error "no poll")
          0).2.countP ApiCall.isCreateDeploymentCall = 1 :=
  (deploy_update_before_create apiHappyPath (OpsWorksDeploy.init ⟨none⟩)
    "app1" (some "https://s3/x.tar.gz") (fun _ => Except.error "no poll") 0
    { AppId := "app1", StackId := "stack1", «Type» := "web" } []
    [{ LayerId := "layer1", «Type» := "web-app" }]
    { LayerId := "layer1", «Type» := "web-app" }
    [{ Status := "online" }, { Status := "stopped" }] "dep1"
    rfl rfl (by decide) rfl (by decide) (fun _ _ => rfl) rfl).2
    "https://s3/x.tar.gz" rfl (by decide)
